import Mathlib

/-!
Shallow embedding of the translation/conversation orchestration core of the
VOICETRANSLATION app (source: the main application component in
src/unnamed/part_001, lines 1-1630).

Modelling conventions, stated once:

* React `useState` fields of the component are collected into one `AppState`
  record; a `setX(v)` call becomes a functional record update.
* `AsyncStorage` keeps JSON strings of the history list; `JSON.stringify` /
  `JSON.parse` form an inverse pair on this data, so a stored value is
  modelled as the decoded list itself.  `setItem` overwrites the entry for a
  key, `getItem` looks a key up.
* Each external call `model.generateContent(prompt)` is an oracle: its result
  is supplied as an `Option String` (`some s` = the call returned response
  text `s`; `none` = the call threw, i.e. the surrounding `catch` runs).
  Gateway structures carry one oracle slot per call site of an invocation.
* `Date.now()` is supplied as a `Nat` parameter (`now`); distinct creation
  points receive distinct parameters.
* Every pipeline returns a `RunResult`: the final `AppState`, the ordered
  list of prompts actually sent to the AI gateway (instrumentation used to
  reason about which external calls were issued), and the `Alert` error shown
  to the user, if any.
* JavaScript `String.prototype.trim` / `toLowerCase` / `split('\n')` /
  `replace(/\*+/g, '')` are modelled by the executable character-list
  functions `jsTrim`, `jsToLower`, `splitLines` and `stripStars` below
  (replacing each maximal `*`-run by the empty string is the same as
  removing every asterisk).
-/

namespace VoiceTranslation

/-- JavaScript `String.prototype.trim`: drop whitespace from both ends. -/
def jsTrim (s : String) : String :=
  String.mk (((s.data.dropWhile Char.isWhitespace).reverse.dropWhile Char.isWhitespace).reverse)

/-- JavaScript `String.prototype.toLowerCase` (on the language codes the app
feeds it, ASCII lowering). -/
def jsToLower (s : String) : String :=
  String.mk (s.data.map Char.toLower)

/-- JavaScript `replace(/\*+/g, '')`: remove every asterisk. -/
def stripStars (s : String) : String :=
  String.mk (s.data.filter (fun c => c != '*'))

/-- Split on newline characters, keeping empty segments (JavaScript
`split('\n')`). -/
def splitLinesAux : List Char → List Char → List (List Char)
| [], acc => [acc.reverse]
| c :: cs, acc =>
  if c = '\n' then acc.reverse :: splitLinesAux cs [] else splitLinesAux cs (c :: acc)

/-- JavaScript `split('\n')` on strings. -/
def splitLines (s : String) : List String :=
  (splitLinesAux s.data []).map String.mk

/-- Speaker role in the live conversation (the source's 'A' | 'B'). -/
inductive Speaker
| A
| B
deriving Repr, DecidableEq

/-- Opposite speaker, as computed at the AI-reply creation site
(`activeConversationSpeaker === 'A' ? 'B' : 'A'`). -/
def Speaker.opposite : Speaker → Speaker
| .A => .B
| .B => .A

/-- The source's `TranslationHistoryItem` interface (one history record). -/
structure TranslationHistoryItem where
  id : String
  transcribedText : String
  translatedText : String
  culturalTips : List String
  sourceLang : String
  targetLang : String
  timestamp : Nat
  isFavorite : Bool
deriving Repr, DecidableEq

/-- One entry of `conversationHistory` in the source. -/
structure ConversationItem where
  id : String
  text : String
  translation : String
  speaker : Speaker
  timestamp : Nat
deriving Repr, DecidableEq

/-- AsyncStorage, abstracted as an association list from keys to the decoded
history lists they hold (see the JSON convention in the file header). -/
abbrev AsyncStorage := List (String × List TranslationHistoryItem)

/-- AsyncStorage.getItem: the value stored under `key`, if any. -/
def AsyncStorage.getItem (s : AsyncStorage) (key : String) : Option (List TranslationHistoryItem) :=
  (s.find? (fun p => p.1 == key)).map (fun p => p.2)

/-- AsyncStorage.setItem: overwrite the value stored under `key`. -/
def AsyncStorage.setItem (s : AsyncStorage) (key : String) (v : List TranslationHistoryItem) : AsyncStorage :=
  (key, v) :: s.filter (fun p => p.1 != key)

/-- The component state: every `useState` hook of the app component that the
modelled logic reads or writes. -/
structure AppState where
  recording : Bool
  transcribedText : String
  translatedText : String
  culturalTips : List String
  sourceLang : String
  targetLang : String
  isOffline : Bool
  history : List TranslationHistoryItem
  textToTranslate : String
  conversationHistory : List ConversationItem
  activeConversationSpeaker : Speaker
  aiConversationMode : Bool
  storage : AsyncStorage
deriving Repr, DecidableEq

/-- The initial component state (the `useState` initial values of the source),
over a given persistent store. -/
def initialAppState (storage : AsyncStorage) : AppState :=
  { recording := false
    transcribedText := ""
    translatedText := ""
    culturalTips := []
    sourceLang := "en"
    targetLang := "es"
    isOffline := false
    history := []
    textToTranslate := ""
    conversationHistory := []
    activeConversationSpeaker := Speaker.A
    aiConversationMode := true
    storage := storage }

/-- The user-facing alerts the modelled pipelines can raise.  The source has
no offline-specific alert in any pipeline; every in-pipeline failure surfaces
as the generic processing alert. -/
inductive UIError
| noAudio
| emptyInput
| processFailed
deriving Repr, DecidableEq

/-- Result of one pipeline invocation: final state, the prompts sent to the
AI gateway in order, and the alert raised (if any). -/
structure RunResult where
  state : AppState
  calls : List String
  err : Option UIError
deriving Repr, DecidableEq

/-- loadHistory (source lines 103-112): read `'@translation_history'`; if a
value is present, replace the in-memory history with it; otherwise (or on a
read error, which is swallowed) leave the state unchanged. -/
def loadHistory (s : AppState) : AppState :=
  match s.storage.getItem ("@translation_history") with
  | some items => { s with history := items }
  | none => s

/-- The argument record of `saveTranslation` (the source's
`Omit<TranslationHistoryItem, 'id' | 'timestamp'>`). -/
structure SaveInput where
  transcribedText : String
  translatedText : String
  culturalTips : List String
  sourceLang : String
  targetLang : String
  isFavorite : Bool
deriving Repr, DecidableEq

/-- The record built inside `saveTranslation`: the caller's fields, with
`id`/`timestamp` freshly assigned and `isFavorite` forced to `false` (the
spread `...item` precedes the `isFavorite: false` field). -/
def mkHistoryItem (input : SaveInput) (now : Nat) : TranslationHistoryItem :=
  { id := toString now
    transcribedText := input.transcribedText
    translatedText := input.translatedText
    culturalTips := input.culturalTips
    sourceLang := input.sourceLang
    targetLang := input.targetLang
    timestamp := now
    isFavorite := false }

/-- saveTranslation (source lines 114-129): prepend the new record and
persist the whole sequence under `'@translation_history'`.  Persistence
errors are swallowed in the source; the store write is modelled as
succeeding. -/
def saveTranslation (s : AppState) (input : SaveInput) (now : Nat) : AppState :=
  let newHistoryItem := mkHistoryItem input now
  let newHistory := newHistoryItem :: s.history
  { s with
      history := newHistory
      storage := s.storage.setItem ("@translation_history") newHistory }

/-- toggleFavorite (source lines 361-372): map over the history, negating
`isFavorite` of the record whose id matches, then re-persist the whole
sequence under `'@translation_history'`. -/
def toggleFavorite (s : AppState) (id : String) : AppState :=
  let newHistory := s.history.map (fun item =>
    if item.id == id then { item with isFavorite := !item.isFavorite } else item)
  { s with
      history := newHistory
      storage := s.storage.setItem ("@translation_history") newHistory }

/-- The transcription prompt (source lines 183 and 480). -/
def transcribeVoicePrompt (lang : String) : String :=
  "Transcribe this audio in " ++ lang ++ " language."

/-- The plain translation prompt (source lines 192, 399, 488 and 537). -/
def translateMainPrompt (fromLang toLang text : String) : String :=
  "Translate this text from " ++ fromLang ++ " to " ++ toLang ++ ": " ++ text

/-- The cultural-tips prompt of the voice and text pipelines (source lines
198 and 405). -/
def tipsMainPrompt (targetLang translated : String) : String :=
  "Provide 3-5 concise cultural nuance tips for speaking " ++ targetLang ++
    " in a conversation, considering the context of the translated text: \"" ++
    translated ++ "\". Format as a numbered list."

/-- The language-detection prompt of the text pipeline (source line 391). -/
def detectTextPrompt (text : String) : String :=
  "Detect the language of this text and respond with just the language code (e.g., \"en\" for English, \"es\" for Spanish): " ++
    text

/-- The language-detection prompt of the OCR pipeline (source line 688). -/
def detectOcrPrompt (text : String) : String :=
  "Detect the language of this text and return only the language code (e.g., 'en', 'es', 'fr'): \"" ++
    text ++ "\""

/-- The translation prompt of the OCR pipeline (source line 694), which
quotes the text. -/
def translateQuotedPrompt (fromLang toLang text : String) : String :=
  "Translate this text from " ++ fromLang ++ " to " ++ toLang ++ ": \"" ++ text ++ "\""

/-- The cultural-tips prompt of the OCR pipeline (source line 699). -/
def tipsOcrPrompt (fromLang toLang : String) : String :=
  "Provide 2-3 brief cultural context tips for translating from " ++ fromLang ++
    " to " ++ toLang ++ ". Format as bullet points."

/-- Tips post-processing of the voice and text pipelines (source lines 200
and 407): trim, strip asterisks, split on newlines, keep non-empty lines. -/
def cleanTips (raw : String) : List String :=
  (splitLines (stripStars (jsTrim raw))).filter (fun tip => tip.length > 0)

/-- Tips post-processing of the OCR pipeline (source line 701): trim, strip
asterisks, split on newlines, keep lines whose trim is non-empty (the JS
truthiness test `tip.trim()`). -/
def cleanTipsOcr (raw : String) : List String :=
  (splitLines (stripStars (jsTrim raw))).filter (fun tip => jsTrim tip != "")

/-- Oracle slots of one `translateText` / `translateExtractedText`
invocation: detection (consulted only when sourceLang is "auto"),
translation, tips. -/
structure TextGateway where
  detect : Option String
  translate : Option String
  tips : Option String
deriving Repr, DecidableEq

/-- Oracle slots of one `stopRecording` invocation. -/
structure VoiceGateway where
  transcribe : Option String
  translate : Option String
  tips : Option String
deriving Repr, DecidableEq

/-- Oracle slots of one conversation turn (`stopConversationRecording`
followed, when AI mode is on, by `generateAIResponse`). -/
structure ConvGateway where
  transcribe : Option String
  translate : Option String
  reply : Option String
  translateBack : Option String
deriving Repr, DecidableEq

/-- Continuation of `translateText` after language resolution: set the
transcribed text, translate, generate tips, save, clear the input field.
Any oracle failure jumps to the catch with the state reached so far. -/
def translateTextRest (s0 : AppState) (detectedLang : String) (calls0 : List String)
    (g : TextGateway) (now : Nat) : RunResult :=
  let s1 := { s0 with transcribedText := s0.textToTranslate }
  let callsT := calls0 ++ [translateMainPrompt detectedLang s0.targetLang s0.textToTranslate]
  match g.translate with
  | none => { state := s1, calls := callsT, err := some UIError.processFailed }
  | some tr =>
    let translated := stripStars (jsTrim tr)
    let s2 := { s1 with translatedText := translated }
    let callsTips := callsT ++ [tipsMainPrompt s0.targetLang translated]
    match g.tips with
    | none => { state := s2, calls := callsTips, err := some UIError.processFailed }
    | some tp =>
      let tips := cleanTips tp
      let s3 := { s2 with culturalTips := tips }
      let s4 := saveTranslation s3
        { transcribedText := s0.textToTranslate
          translatedText := translated
          culturalTips := tips
          sourceLang := detectedLang
          targetLang := s0.targetLang
          isFavorite := false } now
      { state := { s4 with textToTranslate := "" }, calls := callsTips, err := none }

/-- translateText (source lines 374-428), the typed-text single-shot
pipeline: reject empty input, clear the result fields, resolve "auto" via
detection (trim + lowercase of the response), then translate, generate tips
and save. -/
def translateText (s : AppState) (g : TextGateway) (now : Nat) : RunResult :=
  if jsTrim s.textToTranslate == "" then
    { state := s, calls := [], err := some UIError.emptyInput }
  else
    let s0 := { s with transcribedText := "", translatedText := "", culturalTips := [] }
    if s.sourceLang == "auto" then
      match g.detect with
      | none =>
        { state := s0, calls := [detectTextPrompt s.textToTranslate]
          err := some UIError.processFailed }
      | some d =>
        translateTextRest s0 (jsToLower (jsTrim d)) [detectTextPrompt s.textToTranslate] g now
    else
      translateTextRest s0 s.sourceLang [] g now

/-- stopRecording (source lines 157-219), the voice single-shot pipeline:
bail out if no recording or no captured uri, clear the result fields, then
transcribe, translate, generate tips and save.  The local audio fetch is
modelled as succeeding whenever a uri is present. -/
def stopRecording (s : AppState) (uri : Option String) (g : VoiceGateway) (now : Nat) : RunResult :=
  if !s.recording then
    { state := s, calls := [], err := none }
  else
    let sR := { s with recording := false }
    match uri with
    | none => { state := sR, calls := [], err := some UIError.noAudio }
    | some _ =>
      let s0 := { sR with transcribedText := "", translatedText := "", culturalTips := [] }
      let c1 := [transcribeVoicePrompt s.sourceLang]
      match g.transcribe with
      | none => { state := s0, calls := c1, err := some UIError.processFailed }
      | some t =>
        let text := jsTrim t
        let s1 := { s0 with transcribedText := text }
        let c2 := c1 ++ [translateMainPrompt s.sourceLang s.targetLang text]
        match g.translate with
        | none => { state := s1, calls := c2, err := some UIError.processFailed }
        | some tr =>
          let translated := stripStars (jsTrim tr)
          let s2 := { s1 with translatedText := translated }
          let c3 := c2 ++ [tipsMainPrompt s.targetLang translated]
          match g.tips with
          | none => { state := s2, calls := c3, err := some UIError.processFailed }
          | some tp =>
            let tips := cleanTips tp
            let s3 := { s2 with culturalTips := tips }
            let s4 := saveTranslation s3
              { transcribedText := text
                translatedText := translated
                culturalTips := tips
                sourceLang := s.sourceLang
                targetLang := s.targetLang
                isFavorite := false } now
            { state := s4, calls := c3, err := none }

/-- Continuation of `translateExtractedText` after language resolution.
Note: on success this path does NOT go through `saveTranslation`; it builds
the record inline and persists under the key `'translationHistory'` (source
line 722), not `'@translation_history'`. -/
def translateExtractedRest (s : AppState) (detectedSourceLang : String) (calls0 : List String)
    (text : String) (g : TextGateway) (now : Nat) : RunResult :=
  let c1 := calls0 ++ [translateQuotedPrompt detectedSourceLang s.targetLang text]
  match g.translate with
  | none => { state := s, calls := c1, err := some UIError.processFailed }
  | some tr =>
    let translated := stripStars (jsTrim tr)
    let c2 := c1 ++ [tipsOcrPrompt detectedSourceLang s.targetLang]
    match g.tips with
    | none => { state := s, calls := c2, err := some UIError.processFailed }
    | some tp =>
      let tips := cleanTipsOcr tp
      let newHistoryItem : TranslationHistoryItem :=
        { id := toString now
          transcribedText := text
          translatedText := translated
          culturalTips := tips
          sourceLang := detectedSourceLang
          targetLang := s.targetLang
          timestamp := now
          isFavorite := false }
      let updatedHistory := newHistoryItem :: s.history
      let s1 :=
        { s with
            transcribedText := text
            translatedText := translated
            culturalTips := tips
            history := updatedHistory
            storage := s.storage.setItem ("translationHistory") updatedHistory }
      { state := s1, calls := c2, err := none }

/-- translateExtractedText (source lines 680-730), the OCR single-shot
pipeline on already-extracted text: resolve "auto" via detection (trim +
lowercase), translate, generate tips, set the result fields, and persist
the updated history under `'translationHistory'`. -/
def translateExtractedText (s : AppState) (text : String) (g : TextGateway) (now : Nat) : RunResult :=
  if s.sourceLang == "auto" then
    match g.detect with
    | none => { state := s, calls := [detectOcrPrompt text], err := some UIError.processFailed }
    | some d => translateExtractedRest s (jsToLower (jsTrim d)) [detectOcrPrompt text] text g now
  else
    translateExtractedRest s s.sourceLang [] text g now

/-- The speaker label used when formatting conversation context (source line
522: `item.speaker === 'A' ? 'User' : 'Assistant'`). -/
def speakerLabel : Speaker → String
| .A => "User"
| .B => "Assistant"

/-- The bounded conversation context (source lines 521-523): the last four
turns, one speaker-labelled translated line each, joined by newlines. -/
def conversationContext (hist : List ConversationItem) : String :=
  String.intercalate ("\n")
    ((hist.drop (hist.length - 4)).map (fun item => speakerLabel item.speaker ++ ": " ++ item.translation))

/-- The AI-reply prompt (source lines 526-531), reproducing the template
literal including its indentation whitespace. -/
def replyPrompt (userMessage ctx toLang : String) : String :=
  "You are having a natural conversation. The user just said: \"" ++ userMessage ++
    "\"\n      \nPrevious conversation context:\n" ++ ctx ++
    "\n\nGenerate a natural, helpful, and engaging response in " ++ toLang ++
    " language. Keep it conversational and relevant to what they said. Be friendly and helpful. Maximum 2 sentences."

/-- generateAIResponse (source lines 516-561).  `ctxHistory` is the value of
`conversationHistory` captured by the function's closure, which in the source
is the pre-append render value, while the append itself uses a functional
`setConversationHistory` update on the current value (in `s`).  Every failure
is swallowed by the function's own catch (console.error only, no alert), so
no error is returned; on failure the state is returned unchanged.  The
delayed `speak` call on success is fire-and-forget UI output and is not part
of the state. -/
def generateAIResponse (ctxHistory : List ConversationItem) (s : AppState)
    (userMessage fromLang toLang : String) (g : ConvGateway) (now : Nat) :
    AppState × List String :=
  let p1 := replyPrompt userMessage (conversationContext ctxHistory) toLang
  match g.reply with
  | none => (s, [p1])
  | some r =>
    let aiResponse := stripStars (jsTrim r)
    let p2 := translateMainPrompt toLang fromLang aiResponse
    match g.translateBack with
    | none => (s, [p1, p2])
    | some b =>
      let aiResponseTranslated := stripStars (jsTrim b)
      let aiItem : ConversationItem :=
        { id := toString (now + 1)
          text := aiResponse
          translation := aiResponseTranslated
          speaker := s.activeConversationSpeaker.opposite
          timestamp := now + 1 }
      ({ s with conversationHistory := s.conversationHistory ++ [aiItem] }, [p1, p2])

/-- stopConversationRecording (source lines 453-514): resolve the language
pair from the active speaker, transcribe, translate, append the human turn
at the end of the conversation sequence, then (when AI mode is on) run
`generateAIResponse`, whose failures are swallowed.  `nowHuman` is
`Date.now()` at the human item's creation, `nowAI` at the AI item's creation
(the source stores `Date.now() + 1` there).  Note the conversation
translation result is only trimmed (source line 490) — no asterisk
stripping. -/
def stopConversationRecording (s : AppState) (uri : Option String) (g : ConvGateway)
    (nowHuman nowAI : Nat) : RunResult :=
  if !s.recording then
    { state := s, calls := [], err := none }
  else
    let sR := { s with recording := false }
    match uri with
    | none => { state := sR, calls := [], err := some UIError.noAudio }
    | some _ =>
      let fromLang := if s.activeConversationSpeaker == Speaker.A then s.sourceLang else s.targetLang
      let toLang := if s.activeConversationSpeaker == Speaker.A then s.targetLang else s.sourceLang
      let c1 := [transcribeVoicePrompt fromLang]
      match g.transcribe with
      | none => { state := sR, calls := c1, err := some UIError.processFailed }
      | some t =>
        let text := jsTrim t
        let c2 := c1 ++ [translateMainPrompt fromLang toLang text]
        match g.translate with
        | none => { state := sR, calls := c2, err := some UIError.processFailed }
        | some tr =>
          let translated := jsTrim tr
          let newConversationItem : ConversationItem :=
            { id := toString nowHuman
              text := text
              translation := translated
              speaker := s.activeConversationSpeaker
              timestamp := nowHuman }
          let s1 := { sR with conversationHistory := sR.conversationHistory ++ [newConversationItem] }
          if s.aiConversationMode then
            let res := generateAIResponse s.conversationHistory s1 translated fromLang toLang g nowAI
            { state := res.1, calls := c2 ++ res.2, err := none }
          else
            { state := s1, calls := c2, err := none }

/-- One conversation turn as driven by the user: the speaker selected before
recording, the oracle results of the turn's gateway calls, and the
`Date.now()` values at the human and AI item creation points. -/
structure TurnSpec where
  speaker : Speaker
  gateway : ConvGateway
  nowHuman : Nat
  nowAI : Nat
deriving Repr, DecidableEq

/-- A sequence of conversation turns: before each turn the user selects the
active speaker and starts a recording, then stops it, which runs
`stopConversationRecording`. -/
def runConversation (s : AppState) (turns : List TurnSpec) : AppState :=
  turns.foldl
    (fun st t =>
      (stopConversationRecording
        { st with recording := true, activeConversationSpeaker := t.speaker }
        (some ("recording-uri")) t.gateway t.nowHuman t.nowAI).state)
    s

/-- The block of conversation items one turn contributes when AI mode is on:
nothing if transcription or translation failed, the human item alone if the
AI reply or its back-translation failed, and the human item followed by the
opposite-speaker AI item otherwise.  This is the closed form of the effect
of `stopConversationRecording`, proved equal to it below. -/
def turnBlock (t : TurnSpec) : List ConversationItem :=
  match t.gateway.transcribe, t.gateway.translate with
  | some tx, some tr =>
    let human : ConversationItem :=
      { id := toString t.nowHuman
        text := jsTrim tx
        translation := jsTrim tr
        speaker := t.speaker
        timestamp := t.nowHuman }
    match t.gateway.reply, t.gateway.translateBack with
    | some r, some b =>
      [human,
        { id := toString (t.nowAI + 1)
          text := stripStars (jsTrim r)
          translation := stripStars (jsTrim b)
          speaker := t.speaker.opposite
          timestamp := t.nowAI + 1 }]
    | _, _ => [human]
  | _, _ => []

/-- A turn whose required stages (transcription and translation) succeed. -/
def turnOk (t : TurnSpec) : Prop :=
  t.gateway.transcribe.isSome = true ∧ t.gateway.translate.isSome = true

instance (t : TurnSpec) : Decidable (turnOk t) :=
  inferInstanceAs (Decidable (t.gateway.transcribe.isSome = true ∧ t.gateway.translate.isSome = true))

/-- The history list a fresh app session sees: a restart re-runs the
`useState` initialisers and then `loadHistory` (source lines 91-101), so
the in-memory history is whatever `'@translation_history'` holds, or the
initial empty list. -/
def reloadedHistory (storage : AsyncStorage) : List TranslationHistoryItem :=
  (loadHistory (initialAppState storage)).history

/-! Helper lemmas shared by several claims. -/

/-- Writing a key and reading it back yields the written value. -/
theorem getItem_setItem (st : AsyncStorage) (k : String) (v : List TranslationHistoryItem) :
    (st.setItem k v).getItem k = some v := by
  simp [AsyncStorage.getItem, AsyncStorage.setItem, List.find?]

/-- Filtering out the entries of a different key does not change a lookup. -/
theorem find?_filter_ne (st : AsyncStorage) (k k' : String) (h : k ≠ k') :
    (st.filter (fun p => p.1 != k)).find? (fun p => p.1 == k') =
      st.find? (fun p => p.1 == k') := by
  have hk : ¬k' = k := fun he => h he.symm
  induction st with
  | nil => rfl
  | cons p st ih =>
    by_cases hp : p.1 = k'
    · have h1 : (p.1 != k) = true := by simp [hp, hk]
      simp [List.filter_cons, h1, List.find?_cons, hp, hk]
    · by_cases h2 : p.1 = k
      · simp [List.filter_cons, h2, List.find?_cons, hp, ih, h]
      · simp [List.filter_cons, h2, List.find?_cons, hp, ih, h]

/-- Writing one key leaves reads of a different key unchanged. -/
theorem getItem_setItem_ne (st : AsyncStorage) (k k' : String)
    (v : List TranslationHistoryItem) (h : k ≠ k') :
    (st.setItem k v).getItem k' = st.getItem k' := by
  simp only [AsyncStorage.getItem, AsyncStorage.setItem]
  rw [List.find?_cons_of_neg, find?_filter_ne st k k' h]
  simp [h]

/-- The per-item function of `toggleFavorite` is an involution: a second
application restores the record. -/
theorem toggleItem_involutive (id : String) (item : TranslationHistoryItem) :
    (fun it => if it.id == id then { it with isFavorite := !it.isFavorite } else it)
      ((fun it => if it.id == id then { it with isFavorite := !it.isFavorite } else it) item)
      = item := by
  by_cases h : item.id = id
  · subst h
    simp
  · simp [h]

/-! Claim C3: favorite toggling. -/

/-- A concrete unfavorited record used to exercise `toggleFavorite`. -/
def favRecord : TranslationHistoryItem :=
  { id := "1"
    transcribedText := "Good morning"
    translatedText := "Buenos días"
    culturalTips := []
    sourceLang := "en"
    targetLang := "es"
    timestamp := 0
    isFavorite := false }

/-- A state whose history holds exactly `favRecord`. -/
def favState : AppState :=
  { initialAppState [("@translation_history", [favRecord])] with history := [favRecord] }

/-- Claim C3 counterexample: the favorite operation the code implements is
`toggleFavorite`, which negates the flag; applying it twice to a record that
starts unfavorited leaves `isFavorite = false`, not `true` as the claim
states for `setFavorite(id, true)` applied twice. -/
theorem toggleFavorite_twice_not_true_cex :
    (toggleFavorite (toggleFavorite favState ("1")) ("1")).history.map (fun r => r.isFavorite)
      = [false] := by decide

/-- Claim C3 (amended): the favorite operation is an involution, not an
idempotent setter: applying `toggleFavorite id` twice restores every
record's `isFavorite` to its original value, each application preserves the
id sequence (so no duplicate records are created), and for an id absent
from the history a single application leaves the record sequence
unchanged. -/
theorem toggleFavorite_involutive (s : AppState) (id : String) :
    (toggleFavorite (toggleFavorite s id) id).history = s.history ∧
    (toggleFavorite s id).history.map (fun r => r.id) = s.history.map (fun r => r.id) ∧
    ((∀ item ∈ s.history, item.id ≠ id) → (toggleFavorite s id).history = s.history) := by
  refine ⟨?_, ?_, ?_⟩
  · simp only [toggleFavorite, List.map_map]
    calc s.history.map _
        = s.history.map (fun it => it) := by
          refine List.map_congr_left ?_
          intro item _
          exact toggleItem_involutive id item
      _ = s.history := by simp
  · simp only [toggleFavorite, List.map_map]
    refine List.map_congr_left ?_
    intro item _
    by_cases h : item.id = id <;> simp [h]
  · intro habs
    simp only [toggleFavorite]
    calc s.history.map _
        = s.history.map (fun it => it) := by
          refine List.map_congr_left ?_
          intro item hmem
          simp [habs item hmem]
      _ = s.history := by simp

/-- Claim C3 witness: the amended theorem applied to `favState` and the
absent id "9". -/
theorem toggleFavorite_involutive_witness :
    (∀ item ∈ favState.history, item.id ≠ "9") ∧
    (toggleFavorite favState ("9")).history = favState.history :=
  ⟨by decide, (toggleFavorite_involutive favState ("9")).2.2 (by decide)⟩

/-! Claim C4: history round-trip. -/

/-- Claim C4 (amended): for every append that goes through `saveTranslation`
(the voice and typed-text pipelines), `append(r)` followed by `load()`
returns a sequence whose first element is exactly the appended record, whose
content fields equal the caller's input and whose timestamp is the creation
time.  (The image-extraction path is excluded: see the counterexample.) -/
theorem saveTranslation_load_roundtrip (s : AppState) (input : SaveInput) (now : Nat) :
    (loadHistory (saveTranslation s input now)).history.head? = some (mkHistoryItem input now) ∧
    (mkHistoryItem input now).transcribedText = input.transcribedText ∧
    (mkHistoryItem input now).translatedText = input.translatedText ∧
    (mkHistoryItem input now).culturalTips = input.culturalTips ∧
    (mkHistoryItem input now).sourceLang = input.sourceLang ∧
    (mkHistoryItem input now).targetLang = input.targetLang ∧
    (mkHistoryItem input now).timestamp = now := by
  refine ⟨?_, rfl, rfl, rfl, rfl, rfl, rfl⟩
  simp [loadHistory, saveTranslation, getItem_setItem]

/-- A pre-existing record persisted under the regular history key. -/
def priorRecord : TranslationHistoryItem :=
  { id := "0"
    transcribedText := "old"
    translatedText := "viejo"
    culturalTips := []
    sourceLang := "en"
    targetLang := "es"
    timestamp := 0
    isFavorite := false }

/-- A state with one persisted record, as left behind by an earlier
`saveTranslation`. -/
def ocrState : AppState :=
  { initialAppState [("@translation_history", [priorRecord])] with history := [priorRecord] }

/-- Oracle results for one successful OCR translation. -/
def ocrGateway : TextGateway :=
  { detect := none, translate := some ("nuevo"), tips := some ("- tip") }

/-- Claim C4 counterexample: the image-extraction pipeline appends its
record (in memory it is at the head), but it persists under the key
'translationHistory', so `load()` — which reads '@translation_history' —
returns the previous sequence: the first element after load is the old
record, not the appended one. -/
theorem ocr_append_load_roundtrip_cex :
    (translateExtractedText ocrState ("new text") ocrGateway 9).state.history.map
        (fun r => r.transcribedText) = ["new text", "old"] ∧
    (translateExtractedText ocrState ("new text") ocrGateway 9).err = none ∧
    (loadHistory (translateExtractedText ocrState ("new text") ocrGateway 9).state).history.map
        (fun r => r.transcribedText) = ["old"] := by decide

/-! Claim C5: translation-stage failure in the voice pipeline. -/

/-- Claim C5: when transcription succeeds but the translation call fails,
the voice pipeline appends no record (in-memory history and the durable
store are both unchanged), while the transcribed text — already set before
the failure — remains available in the caller-visible state; the failure
surfaces as the generic processing alert. -/
theorem stopRecording_translate_failure_no_append (s : AppState) (u t : String)
    (tipsR : Option String) (now : Nat) (hrec : s.recording = true) :
    (stopRecording s (some u) { transcribe := some t, translate := none, tips := tipsR } now).state.history
        = s.history ∧
    (stopRecording s (some u) { transcribe := some t, translate := none, tips := tipsR } now).state.storage
        = s.storage ∧
    (stopRecording s (some u) { transcribe := some t, translate := none, tips := tipsR } now).state.transcribedText
        = jsTrim t ∧
    (stopRecording s (some u) { transcribe := some t, translate := none, tips := tipsR } now).err
        = some UIError.processFailed := by
  simp [stopRecording, hrec]

/-- A state mid-recording, used to instantiate the voice-pipeline claims. -/
def voiceState : AppState := { initialAppState [] with recording := true }

/-- Claim C5 witness: the theorem applied at a concrete recording state with
a succeeding transcription and a failing translation. -/
theorem stopRecording_translate_failure_no_append_witness :
    voiceState.recording = true ∧
    ((stopRecording voiceState (some ("u")) { transcribe := some (" hello "), translate := none, tips := none } 3).state.history
        = voiceState.history ∧
     (stopRecording voiceState (some ("u")) { transcribe := some (" hello "), translate := none, tips := none } 3).state.storage
        = voiceState.storage ∧
     (stopRecording voiceState (some ("u")) { transcribe := some (" hello "), translate := none, tips := none } 3).state.transcribedText
        = jsTrim (" hello ") ∧
     (stopRecording voiceState (some ("u")) { transcribe := some (" hello "), translate := none, tips := none } 3).err
        = some UIError.processFailed) :=
  ⟨rfl, stopRecording_translate_failure_no_append voiceState ("u") " hello " none 3 rfl⟩

/-! Claim C10: the OCR pipeline's mismatched storage key. -/

/-- After a restart, the visible history is exactly what the regular key
holds (or empty when it holds nothing). -/
theorem reloadedHistory_eq (storage : AsyncStorage) :
    reloadedHistory storage = (storage.getItem ("@translation_history")).getD [] := by
  unfold reloadedHistory loadHistory
  cases h : (initialAppState storage).storage.getItem ("@translation_history") with
  | none =>
    have h' : storage.getItem ("@translation_history") = none := h
    simp [h', initialAppState]
  | some items =>
    have h' : storage.getItem ("@translation_history") = some items := h
    simp [h']

/-- Claim C10: a record appended by the image-extraction pipeline is
persisted under 'translationHistory', the regular key '@translation_history'
is left untouched, and consequently after an app restart (`reloadedHistory`,
i.e. fresh state plus `loadHistory`) the appended record — identified here
by its fresh id — is absent from the loaded sequence whenever no record of
that id was already persisted under the regular key. -/
theorem ocr_key_mismatch_record_not_loaded (s : AppState) (text : String) (g : TextGateway)
    (now : Nat) (d tr tp : String)
    (hd : s.sourceLang = "auto" → g.detect = some d)
    (htr : g.translate = some tr) (htp : g.tips = some tp)
    (hfresh : ∀ r ∈ (s.storage.getItem ("@translation_history")).getD [], r.id ≠ toString now) :
    (translateExtractedText s text g now).state.storage.getItem ("@translation_history")
        = s.storage.getItem ("@translation_history") ∧
    (translateExtractedText s text g now).state.history.head?.map (fun r => r.id)
        = some (toString now) ∧
    (translateExtractedText s text g now).state.storage.getItem ("translationHistory")
        = some ((translateExtractedText s text g now).state.history) ∧
    ∀ r ∈ reloadedHistory (translateExtractedText s text g now).state.storage,
        r.id ≠ toString now := by
  have hkey : ("translationHistory" : String) ≠ "@translation_history" := by decide
  have hmain : ∀ (detLang : String) (calls0 : List String),
      (translateExtractedRest s detLang calls0 text g now).state.storage.getItem ("@translation_history")
          = s.storage.getItem ("@translation_history") ∧
      (translateExtractedRest s detLang calls0 text g now).state.history.head?.map (fun r => r.id)
          = some (toString now) ∧
      (translateExtractedRest s detLang calls0 text g now).state.storage.getItem ("translationHistory")
          = some ((translateExtractedRest s detLang calls0 text g now).state.history) := by
    intro detLang calls0
    refine ⟨?_, ?_, ?_⟩
    · simp [translateExtractedRest, htr, htp, getItem_setItem_ne _ _ _ _ hkey]
    · simp [translateExtractedRest, htr, htp]
    · simp [translateExtractedRest, htr, htp, getItem_setItem]
  have hsplit :
      translateExtractedText s text g now
        = translateExtractedRest s (if s.sourceLang = "auto" then jsToLower (jsTrim d) else s.sourceLang)
            (if s.sourceLang = "auto" then [detectOcrPrompt text] else []) text g now := by
    by_cases hA : s.sourceLang = "auto"
    · simp [translateExtractedText, hA, hd hA]
    · simp [translateExtractedText, hA]
  rw [hsplit]
  obtain ⟨h1, h2, h3⟩ := hmain (if s.sourceLang = "auto" then jsToLower (jsTrim d) else s.sourceLang)
    (if s.sourceLang = "auto" then [detectOcrPrompt text] else [])
  refine ⟨h1, h2, h3, ?_⟩
  intro r hr
  rw [reloadedHistory_eq, h1] at hr
  exact hfresh r hr

/-- Claim C10 witness: the theorem applied at a concrete state with one
previously persisted record and a successful OCR translation. -/
theorem ocr_key_mismatch_record_not_loaded_witness :
    (ocrState.sourceLang = "auto" → ocrGateway.detect = some ("xx")) ∧
    ocrGateway.translate = some ("nuevo") ∧
    ocrGateway.tips = some ("- tip") ∧
    (∀ r ∈ (ocrState.storage.getItem ("@translation_history")).getD [], r.id ≠ toString 9) ∧
    ((translateExtractedText ocrState ("new text") ocrGateway 9).state.storage.getItem ("@translation_history")
        = ocrState.storage.getItem ("@translation_history") ∧
     (translateExtractedText ocrState ("new text") ocrGateway 9).state.history.head?.map (fun r => r.id)
        = some (toString 9) ∧
     (translateExtractedText ocrState ("new text") ocrGateway 9).state.storage.getItem ("translationHistory")
        = some ((translateExtractedText ocrState ("new text") ocrGateway 9).state.history) ∧
     ∀ r ∈ reloadedHistory (translateExtractedText ocrState ("new text") ocrGateway 9).state.storage,
        r.id ≠ toString 9) :=
  ⟨by decide, rfl, rfl, by decide,
    ocr_key_mismatch_record_not_loaded ocrState ("new text") ocrGateway 9 ("xx") "nuevo" "- tip"
      (by decide) rfl rfl (by decide)⟩

/-! Claim C6: offline gating of the voice pipeline. -/

/-- A state mid-recording while the connectivity monitor reports offline. -/
def offlineState : AppState :=
  { initialAppState [] with recording := true, isOffline := true }

/-- Oracle results for a voice invocation whose network calls all fail, as
they do while offline. -/
def failingVoiceGateway : VoiceGateway :=
  { transcribe := none, translate := none, tips := none }

/-- Claim C6 counterexample: invoked while offline, `stopRecording` does not
fail fast — it issues the transcription gateway call (the call trace is the
transcription prompt), and the resulting failure surfaces as the generic
processing alert, not a distinct offline error (the pipeline has no offline
error at all). -/
theorem stopRecording_offline_calls_made_cex :
    offlineState.isOffline = true ∧
    (stopRecording offlineState (some ("audio-uri")) failingVoiceGateway 5).calls
        = [transcribeVoicePrompt ("en")] ∧
    (stopRecording offlineState (some ("audio-uri")) failingVoiceGateway 5).err
        = some UIError.processFailed := by decide

/-- Claim C6 (amended): the voice-capture-stop pipeline performs no
connectivity check: even when the state is offline, its first action is the
transcription gateway call (offline gating exists only in the UI, which
disables the mic button).  When the transcription call fails — as it does
offline — no record is appended (history and durable store unchanged) and
the error surfaced is the generic processing failure. -/
theorem stopRecording_offline_no_gating (s : AppState) (u : String) (g : VoiceGateway)
    (now : Nat) (hoff : s.isOffline = true) (hrec : s.recording = true) :
    (stopRecording s (some u) g now).calls.head? = some (transcribeVoicePrompt s.sourceLang) ∧
    (g.transcribe = none →
      (stopRecording s (some u) g now).state.history = s.history ∧
      (stopRecording s (some u) g now).state.storage = s.storage ∧
      (stopRecording s (some u) g now).err = some UIError.processFailed) := by
  constructor
  · rcases g with ⟨tx, tr, tp⟩
    cases tx with
    | none => simp [stopRecording, hrec]
    | some t =>
      cases tr with
      | none => simp [stopRecording, hrec]
      | some r =>
        cases tp with
        | none => simp [stopRecording, hrec]
        | some p => simp [stopRecording, hrec]
  · intro htx
    simp [stopRecording, hrec, htx]

/-- Claim C6 witness: the amended theorem applied at the concrete offline
recording state with failing gateway calls. -/
theorem stopRecording_offline_no_gating_witness :
    offlineState.isOffline = true ∧ offlineState.recording = true ∧
    failingVoiceGateway.transcribe = none ∧
    ((stopRecording offlineState (some ("u")) failingVoiceGateway 5).calls.head?
        = some (transcribeVoicePrompt offlineState.sourceLang) ∧
     (failingVoiceGateway.transcribe = none →
       (stopRecording offlineState (some ("u")) failingVoiceGateway 5).state.history
          = offlineState.history ∧
       (stopRecording offlineState (some ("u")) failingVoiceGateway 5).state.storage
          = offlineState.storage ∧
       (stopRecording offlineState (some ("u")) failingVoiceGateway 5).err
          = some UIError.processFailed)) :=
  ⟨rfl, rfl, rfl, stopRecording_offline_no_gating offlineState ("u") failingVoiceGateway 5 rfl rfl⟩

/-! Claim C7: failure of the cultural-tips stage. -/

/-- A state with typed text ready to translate. -/
def c7State : AppState := { initialAppState [] with textToTranslate := "Hello" }

/-- Oracle results where translation succeeds and the tips call throws. -/
def c7Gateway : TextGateway := { detect := none, translate := some ("Hola"), tips := none }

/-- Claim C7 counterexample: with input and translation succeeding but the
tips call failing, the text pipeline does NOT continue with empty tips — it
aborts: no record is appended (history stays empty) and the generic
processing alert is raised, because the tips call sits inside the same
try block as the required stages. -/
theorem translateText_tips_failure_no_append_cex :
    (translateText c7State c7Gateway 7).state.history = [] ∧
    (translateText c7State c7Gateway 7).err = some UIError.processFailed := by decide

/-- Claim C7 (amended): in both single-shot pipelines (typed text and
voice), a failure of the cultural-tips gateway call aborts the invocation
like any required-stage failure: no record is appended (in-memory history
and durable store unchanged) and the generic alert is raised; the
translation obtained before the failure stays visible in the caller-facing
state, and the tips field stays empty. -/
theorem tips_failure_aborts_pipeline :
    (∀ (s : AppState) (g : TextGateway) (now : Nat) (tr : String),
      ¬jsTrim s.textToTranslate = "" →
      (s.sourceLang = "auto" → g.detect.isSome = true) →
      g.translate = some tr → g.tips = none →
      (translateText s g now).state.history = s.history ∧
      (translateText s g now).state.storage = s.storage ∧
      (translateText s g now).state.translatedText = stripStars (jsTrim tr) ∧
      (translateText s g now).state.culturalTips = [] ∧
      (translateText s g now).err = some UIError.processFailed) ∧
    (∀ (s : AppState) (u : String) (g : VoiceGateway) (now : Nat) (t tr : String),
      s.recording = true →
      g.transcribe = some t → g.translate = some tr → g.tips = none →
      (stopRecording s (some u) g now).state.history = s.history ∧
      (stopRecording s (some u) g now).state.storage = s.storage ∧
      (stopRecording s (some u) g now).state.translatedText = stripStars (jsTrim tr) ∧
      (stopRecording s (some u) g now).state.culturalTips = [] ∧
      (stopRecording s (some u) g now).err = some UIError.processFailed) := by
  constructor
  · intro s g now tr hne hd htr htp
    have hbeq : (jsTrim s.textToTranslate == "") = false := by
      simp [hne]
    by_cases hA : s.sourceLang = "auto"
    · obtain ⟨d, hdet⟩ := Option.isSome_iff_exists.mp (hd hA)
      simp [translateText, translateTextRest, hbeq, hA, hdet, htr, htp]
    · simp [translateText, translateTextRest, hbeq, hA, htr, htp]
  · intro s u g now t tr hrec htx htr htp
    simp [stopRecording, hrec, htx, htr, htp]

/-- Claim C7 witness: the amended theorem's text-pipeline half applied at a
concrete state with a failing tips call. -/
theorem tips_failure_aborts_pipeline_witness :
    ¬jsTrim c7State.textToTranslate = "" ∧
    (c7State.sourceLang = "auto" → c7Gateway.detect.isSome = true) ∧
    c7Gateway.translate = some ("Hola") ∧ c7Gateway.tips = none ∧
    ((translateText c7State c7Gateway 7).state.history = c7State.history ∧
     (translateText c7State c7Gateway 7).state.storage = c7State.storage ∧
     (translateText c7State c7Gateway 7).state.translatedText = stripStars (jsTrim ("Hola")) ∧
     (translateText c7State c7Gateway 7).state.culturalTips = [] ∧
     (translateText c7State c7Gateway 7).err = some UIError.processFailed) :=
  ⟨by decide, by decide, rfl, rfl,
    tips_failure_aborts_pipeline.1 c7State c7Gateway 7 ("Hola") (by decide) (by decide) rfl rfl⟩

/-! Claims C1 and C2: the record appended by the text pipeline and the
handling of the detection result. -/

/-- A state asking for auto-detection of typed text. -/
def autoState : AppState :=
  { initialAppState [] with sourceLang := "auto", textToTranslate := "hola" }

/-- Oracle results where the detector answers with the literal string
"auto" (a successful gateway call: it returned response text). -/
def autoGateway : TextGateway :=
  { detect := some ("auto"), translate := some ("hello"), tips := some ("1. tip") }

/-- Claim C1 counterexample: with sourceLang "auto" and every gateway call
succeeding, the detector's response "auto" is stored verbatim (after trim
and lowercase) — the persisted record's sourceLang IS the sentinel "auto",
because the code trusts the detection response with no guard. -/
theorem translateText_sentinel_stored_cex :
    (translateText autoState autoGateway 3).state.history.map (fun r => r.sourceLang)
        = ["auto"] ∧
    (translateText autoState autoGateway 3).err = none := by decide

/-- Claim C1 (amended): for every text-pipeline invocation with non-empty
input in which every gateway call succeeds, exactly one new record is
appended at the head of the history, with `isFavorite = false`; its
`sourceLang` is the caller's code when that is not "auto", and otherwise
the detection response trimmed and lower-cased — so the sentinel can be
stored only when the detector itself answers "auto". -/
theorem translateText_appends_resolved_record (s : AppState) (g : TextGateway) (now : Nat)
    (d tr tp : String)
    (hne : ¬jsTrim s.textToTranslate = "")
    (hd : s.sourceLang = "auto" → g.detect = some d)
    (htr : g.translate = some tr) (htp : g.tips = some tp) :
    (translateText s g now).state.history =
      mkHistoryItem
        { transcribedText := s.textToTranslate
          translatedText := stripStars (jsTrim tr)
          culturalTips := cleanTips tp
          sourceLang := if s.sourceLang = "auto" then jsToLower (jsTrim d) else s.sourceLang
          targetLang := s.targetLang
          isFavorite := false } now :: s.history ∧
    (translateText s g now).state.history.head?.map (fun r => r.isFavorite) = some false ∧
    (translateText s g now).err = none := by
  have hbeq : (jsTrim s.textToTranslate == "") = false := by simp [hne]
  by_cases hA : s.sourceLang = "auto"
  · simp [translateText, translateTextRest, hbeq, hA, hd hA, htr, htp, saveTranslation, mkHistoryItem]
  · simp [translateText, translateTextRest, hbeq, hA, htr, htp, saveTranslation, mkHistoryItem]

/-- A state used for the C1 witness: the spec's own §8 example, without
auto-detection. -/
def scenarioState : AppState :=
  { initialAppState [] with sourceLang := "en", targetLang := "es", textToTranslate := "Good morning" }

/-- Oracle results of the spec's §8 example. -/
def scenarioGateway : TextGateway :=
  { detect := none
    translate := some ("Buenos días")
    tips := some ("Use formal greetings with elders") }

/-- Claim C1 witness: the amended theorem applied to the spec's §8 example
("Good morning", en→es). -/
theorem translateText_appends_resolved_record_witness :
    ¬jsTrim scenarioState.textToTranslate = "" ∧
    (scenarioState.sourceLang = "auto" → scenarioGateway.detect = some ("zz")) ∧
    scenarioGateway.translate = some ("Buenos días") ∧
    scenarioGateway.tips = some ("Use formal greetings with elders") ∧
    ((translateText scenarioState scenarioGateway 11).state.history =
      mkHistoryItem
        { transcribedText := scenarioState.textToTranslate
          translatedText := stripStars (jsTrim ("Buenos días"))
          culturalTips := cleanTips ("Use formal greetings with elders")
          sourceLang := if scenarioState.sourceLang = "auto" then jsToLower (jsTrim ("zz")) else scenarioState.sourceLang
          targetLang := scenarioState.targetLang
          isFavorite := false } 11 :: scenarioState.history ∧
     (translateText scenarioState scenarioGateway 11).state.history.head?.map (fun r => r.isFavorite)
        = some false ∧
     (translateText scenarioState scenarioGateway 11).err = none) :=
  ⟨by decide, by decide, rfl, rfl,
    translateText_appends_resolved_record scenarioState scenarioGateway 11 ("zz") "Buenos días"
      "Use formal greetings with elders" (by decide) (by decide) rfl rfl⟩

/-- A second auto-detection state, for the C2 counterexample. -/
def autoState2 : AppState :=
  { initialAppState [] with sourceLang := "auto", textToTranslate := "bonjour" }

/-- Oracle results where the detector's response carries surrounding
whitespace and upper case. -/
def autoGateway2 : TextGateway :=
  { detect := some (" AUTO "), translate := some ("hello"), tips := some ("1. tip") }

/-- Claim C2 counterexample: the stored sourceLang is the detection response
trimmed and then lower-cased, not merely lower-cased: for the successful
response " AUTO " the code stores "auto", while the claim's value — the
response lower-cased — is " auto "; moreover the stored value here IS the
sentinel "auto", which the claim says is never stored. -/
theorem detectedLang_not_plain_lowercase_cex :
    (translateText autoState2 autoGateway2 4).state.history.map (fun r => r.sourceLang)
        = ["auto"] ∧
    jsToLower (" AUTO ") = " auto " ∧
    ¬("auto" : String) = " auto " ∧
    (translateText autoState2 autoGateway2 4).err = none := by decide

/-- Claim C2 (amended): when the caller-supplied sourceLang is "auto" and
the gateway calls succeed, the sourceLang stored by the text pipeline and by
the OCR pipeline equals the detection response trimmed of surrounding
whitespace and then lower-cased; in particular the sentinel "auto" is stored
exactly when that trimmed, lower-cased response is itself "auto". -/
theorem translateText_detected_lang_trim_lower (s : AppState) (g : TextGateway) (now : Nat)
    (text d tr tp : String)
    (hauto : s.sourceLang = "auto") (hne : ¬jsTrim s.textToTranslate = "")
    (hd : g.detect = some d) (htr : g.translate = some tr) (htp : g.tips = some tp) :
    (translateText s g now).state.history.head?.map (fun r => r.sourceLang)
        = some (jsToLower (jsTrim d)) ∧
    (translateExtractedText s text g now).state.history.head?.map (fun r => r.sourceLang)
        = some (jsToLower (jsTrim d)) := by
  have hbeq : (jsTrim s.textToTranslate == "") = false := by simp [hne]
  constructor
  · simp [translateText, translateTextRest, hbeq, hauto, hd, htr, htp, saveTranslation, mkHistoryItem]
  · simp [translateExtractedText, translateExtractedRest, hauto, hd, htr, htp]

/-- Claim C2 witness: the amended theorem applied to the concrete
auto-detection state with detector response " AUTO ". -/
theorem translateText_detected_lang_trim_lower_witness :
    autoState2.sourceLang = "auto" ∧
    ¬jsTrim autoState2.textToTranslate = "" ∧
    autoGateway2.detect = some (" AUTO ") ∧
    autoGateway2.translate = some ("hello") ∧
    autoGateway2.tips = some ("1. tip") ∧
    ((translateText autoState2 autoGateway2 4).state.history.head?.map (fun r => r.sourceLang)
        = some (jsToLower (jsTrim (" AUTO "))) ∧
     (translateExtractedText autoState2 ("bonjour") autoGateway2 4).state.history.head?.map
          (fun r => r.sourceLang)
        = some (jsToLower (jsTrim (" AUTO ")))) :=
  ⟨rfl, by decide, rfl, rfl, rfl,
    translateText_detected_lang_trim_lower autoState2 autoGateway2 4 ("bonjour") " AUTO " "hello"
      "1. tip" rfl (by decide) rfl rfl rfl⟩

/-! Claim C8: AI-reply failures in the conversation pipeline are swallowed. -/

/-- Claim C8: when transcription and translation succeed (so the human turn
is appended at the end of the turn sequence) but the AI reply generation or
its back-translation fails, the failure is swallowed by
`generateAIResponse`'s own catch: the turn sequence is exactly the old one
plus the human turn (no AI-attributed turn), and no error is surfaced to the
caller. -/
theorem conversation_ai_failure_swallowed (s : AppState) (u : String) (g : ConvGateway)
    (nowH nowA : Nat) (t tr : String)
    (hrec : s.recording = true) (hai : s.aiConversationMode = true)
    (ht : g.transcribe = some t) (htr : g.translate = some tr)
    (hfail : g.reply = none ∨ g.translateBack = none) :
    (stopConversationRecording s (some u) g nowH nowA).state.conversationHistory =
      s.conversationHistory ++
        [{ id := toString nowH
           text := jsTrim t
           translation := jsTrim tr
           speaker := s.activeConversationSpeaker
           timestamp := nowH }] ∧
    (stopConversationRecording s (some u) g nowH nowA).err = none := by
  rcases hfail with hf | hf
  · simp [stopConversationRecording, generateAIResponse, hrec, hai, ht, htr, hf]
  · cases hrep : g.reply with
    | none => simp [stopConversationRecording, generateAIResponse, hrec, hai, ht, htr, hrep]
    | some r =>
      simp [stopConversationRecording, generateAIResponse, hrec, hai, ht, htr, hrep, hf]

/-- A conversation state mid-recording with AI mode on (the defaults of the
source, with a recording in progress). -/
def convRecState : AppState := { initialAppState [] with recording := true }

/-- Oracle results where the human stages succeed and the AI reply call
fails. -/
def aiFailGateway : ConvGateway :=
  { transcribe := some ("hi"), translate := some ("hola"), reply := none, translateBack := none }

/-- Claim C8 witness: the theorem applied at a concrete turn whose AI reply
generation fails. -/
theorem conversation_ai_failure_swallowed_witness :
    convRecState.recording = true ∧
    convRecState.aiConversationMode = true ∧
    aiFailGateway.transcribe = some ("hi") ∧
    aiFailGateway.translate = some ("hola") ∧
    (aiFailGateway.reply = none ∨ aiFailGateway.translateBack = none) ∧
    ((stopConversationRecording convRecState (some ("u")) aiFailGateway 10 20).state.conversationHistory =
      convRecState.conversationHistory ++
        [{ id := toString 10
           text := jsTrim ("hi")
           translation := jsTrim ("hola")
           speaker := convRecState.activeConversationSpeaker
           timestamp := 10 }] ∧
     (stopConversationRecording convRecState (some ("u")) aiFailGateway 10 20).err = none) :=
  ⟨rfl, rfl, rfl, rfl, Or.inl rfl,
    conversation_ai_failure_swallowed convRecState ("u") aiFailGateway 10 20 ("hi") "hola"
      rfl rfl rfl rfl (Or.inl rfl)⟩

/-! Claim C9: conversation turn ordering.  The lemmas below relate one
`stopConversationRecording` step to its closed-form `turnBlock`, then fold
over a turn list. -/

/-- One conversation step, with AI mode on, appends exactly `turnBlock t`
to the turn sequence and otherwise only clears the recording flag and
records the chosen speaker. -/
theorem stopConversation_state_eq (s : AppState) (t : TurnSpec) (u : String)
    (hai : s.aiConversationMode = true) :
    (stopConversationRecording
        { s with recording := true, activeConversationSpeaker := t.speaker }
        (some u) t.gateway t.nowHuman t.nowAI).state =
      { s with
          recording := false
          activeConversationSpeaker := t.speaker
          conversationHistory := s.conversationHistory ++ turnBlock t } := by
  rcases t with ⟨sp, ⟨tx, tr, rp, bk⟩, nH, nA⟩
  cases tx with
  | none => simp [stopConversationRecording, turnBlock]
  | some t0 =>
    cases tr with
    | none => simp [stopConversationRecording, turnBlock]
    | some tr0 =>
      cases rp with
      | none => simp [stopConversationRecording, generateAIResponse, turnBlock, hai]
      | some r0 =>
        cases bk with
        | none => simp [stopConversationRecording, generateAIResponse, turnBlock, hai]
        | some b0 => simp [stopConversationRecording, generateAIResponse, turnBlock, hai]

/-- Folding a turn list appends the concatenation of the blocks; AI mode
stays on throughout. -/
theorem runConversation_history (turns : List TurnSpec) (s : AppState)
    (hai : s.aiConversationMode = true) :
    (runConversation s turns).conversationHistory =
      s.conversationHistory ++ (turns.map turnBlock).flatten ∧
    (runConversation s turns).aiConversationMode = true := by
  induction turns generalizing s with
  | nil => simpa [runConversation] using hai
  | cons t ts ih =>
    have hstep := stopConversation_state_eq s t ("recording-uri") hai
    have hrun : runConversation s (t :: ts) =
        runConversation
          { s with
              recording := false
              activeConversationSpeaker := t.speaker
              conversationHistory := s.conversationHistory ++ turnBlock t } ts := by
      simp [runConversation, List.foldl_cons]
      rw [hstep]
    rw [hrun]
    obtain ⟨h1, h2⟩ := ih
      { s with
          recording := false
          activeConversationSpeaker := t.speaker
          conversationHistory := s.conversationHistory ++ turnBlock t } hai
    refine ⟨?_, h2⟩
    rw [h1]
    simp [List.append_assoc]

/-- A successful turn's block is headed by the human item, created at the
turn's human creation time. -/
theorem turnBlock_head_ts (t : TurnSpec) (h : turnOk t) :
    (turnBlock t).head?.map (fun a => a.timestamp) = some t.nowHuman := by
  obtain ⟨htx, htr⟩ := h
  obtain ⟨tx, hx⟩ := Option.isSome_iff_exists.mp htx
  obtain ⟨tr, hr⟩ := Option.isSome_iff_exists.mp htr
  cases hrp : t.gateway.reply <;> cases hbk : t.gateway.translateBack <;>
    simp [turnBlock, hx, hr, hrp, hbk]

/-- A successful turn's block is non-empty. -/
theorem turnBlock_ne_nil (t : TurnSpec) (h : turnOk t) : turnBlock t ≠ [] := by
  obtain ⟨htx, htr⟩ := h
  obtain ⟨tx, hx⟩ := Option.isSome_iff_exists.mp htx
  obtain ⟨tr, hr⟩ := Option.isSome_iff_exists.mp htr
  cases hrp : t.gateway.reply <;> cases hbk : t.gateway.translateBack <;>
    simp [turnBlock, hx, hr, hrp, hbk]

/-- A successful turn contributes one or two items. -/
theorem turnBlock_length (t : TurnSpec) (h : turnOk t) :
    (turnBlock t).length = 1 ∨ (turnBlock t).length = 2 := by
  obtain ⟨htx, htr⟩ := h
  obtain ⟨tx, hx⟩ := Option.isSome_iff_exists.mp htx
  obtain ⟨tr, hr⟩ := Option.isSome_iff_exists.mp htr
  cases hrp : t.gateway.reply with
  | none => left; simp [turnBlock, hx, hr, hrp]
  | some r =>
    cases hbk : t.gateway.translateBack with
    | none => left; simp [turnBlock, hx, hr, hrp, hbk]
    | some b => right; simp [turnBlock, hx, hr, hrp, hbk]

/-- Every item of a turn's block carries a timestamp between the turn's
human creation time and one past its AI creation time. -/
theorem turnBlock_ts_bounds (t : TurnSpec) (hT : t.nowHuman ≤ t.nowAI) :
    ∀ x ∈ turnBlock t, t.nowHuman ≤ x.timestamp ∧ x.timestamp ≤ t.nowAI + 1 := by
  intro x hx
  cases h1 : t.gateway.transcribe with
  | none => simp [turnBlock, h1] at hx
  | some tx =>
    cases h2 : t.gateway.translate with
    | none => simp [turnBlock, h1, h2] at hx
    | some tr =>
      cases h3 : t.gateway.reply with
      | none =>
        simp [turnBlock, h1, h2, h3] at hx
        subst hx
        constructor
        · simp
        · simp
          omega
      | some r =>
        cases h4 : t.gateway.translateBack with
        | none =>
          simp [turnBlock, h1, h2, h3, h4] at hx
          subst hx
          constructor
          · simp
          · simp
            omega
        | some b =>
          simp [turnBlock, h1, h2, h3, h4] at hx
          rcases hx with hx | hx <;> subst hx <;> constructor <;> simp <;> omega

/-- Within one block the timestamps strictly increase. -/
theorem turnBlock_chain (t : TurnSpec) (hT : t.nowHuman ≤ t.nowAI) :
    (turnBlock t).Chain' (fun a b => a.timestamp < b.timestamp) := by
  cases h1 : t.gateway.transcribe with
  | none => simp [turnBlock, h1]
  | some tx =>
    cases h2 : t.gateway.translate with
    | none => simp [turnBlock, h1, h2]
    | some tr =>
      cases h3 : t.gateway.reply with
      | none => simp [turnBlock, h1, h2, h3]
      | some r =>
        cases h4 : t.gateway.translateBack with
        | none => simp [turnBlock, h1, h2, h3, h4]
        | some b =>
          simp [turnBlock, h1, h2, h3, h4]
          omega

/-- When a block has two items, the first is the human turn with the turn's
speaker and the second is the AI turn attributed to the opposite speaker. -/
theorem turnBlock_pair (t : TurnSpec) (a b : ConversationItem)
    (h : turnBlock t = [a, b]) :
    a.speaker = t.speaker ∧ b.speaker = t.speaker.opposite ∧
    a.timestamp = t.nowHuman ∧ b.timestamp = t.nowAI + 1 := by
  cases h1 : t.gateway.transcribe with
  | none => simp [turnBlock, h1] at h
  | some tx =>
    cases h2 : t.gateway.translate with
    | none => simp [turnBlock, h1, h2] at h
    | some tr =>
      cases h3 : t.gateway.reply with
      | none => simp [turnBlock, h1, h2, h3] at h
      | some r =>
        cases h4 : t.gateway.translateBack with
        | none => simp [turnBlock, h1, h2, h3, h4] at h
        | some b0 =>
          simp [turnBlock, h1, h2, h3, h4] at h
          obtain ⟨rfl, rfl⟩ := h
          exact ⟨rfl, rfl, rfl, rfl⟩

/-- A turn list of successful turns contributes between one and two items
per turn. -/
theorem flatten_blocks_length (ts : List TurnSpec) (h : ∀ t ∈ ts, turnOk t) :
    ts.length ≤ ((ts.map turnBlock).flatten).length ∧
    ((ts.map turnBlock).flatten).length ≤ 2 * ts.length := by
  induction ts with
  | nil => simp
  | cons t ts ih =>
    obtain ⟨ih1, ih2⟩ := ih (fun x hx => h x (List.mem_cons_of_mem t hx))
    have hlen := turnBlock_length t (h t (List.mem_cons_self t ts))
    simp only [List.map_cons, List.flatten_cons, List.length_append, List.length_cons]
    rcases hlen with h1 | h1 <;> rw [h1] <;> omega

/-- Timestamps across the concatenated blocks of successful, time-separated
turns strictly increase. -/
theorem flatten_blocks_chain (ts : List TurnSpec)
    (hok : ∀ t ∈ ts, turnOk t) (hT : ∀ t ∈ ts, t.nowHuman ≤ t.nowAI)
    (hsep : ts.Chain' (fun a b => a.nowAI + 1 < b.nowHuman)) :
    ((ts.map turnBlock).flatten).Chain' (fun a b => a.timestamp < b.timestamp) := by
  induction ts with
  | nil => simp
  | cons t ts ih =>
    simp only [List.map_cons, List.flatten_cons]
    rw [List.chain'_append]
    have hTt : t.nowHuman ≤ t.nowAI := hT t (List.mem_cons_self t ts)
    refine ⟨turnBlock_chain t hTt, ?_, ?_⟩
    · exact ih (fun x hx => hok x (List.mem_cons_of_mem t hx))
        (fun x hx => hT x (List.mem_cons_of_mem t hx)) hsep.tail
    · intro x hx y hy
      cases ts with
      | nil => simp at hy
      | cons t2 ts2 =>
        have hok2 : turnOk t2 := hok t2 (by simp)
        have hne2 : turnBlock t2 ≠ [] := turnBlock_ne_nil t2 hok2
        rw [List.map_cons, List.flatten_cons, List.head?_append_of_ne_nil _ hne2] at hy
        have hhead := turnBlock_head_ts t2 hok2
        have hyts : y.timestamp = t2.nowHuman := by
          cases hh : (turnBlock t2).head? with
          | none =>
            rw [hh] at hy
            simp at hy
          | some a =>
            rw [hh] at hy hhead
            simp at hy hhead
            rw [← hy]
            exact hhead
        have hxmem : x ∈ turnBlock t := by
          obtain ⟨hne, hxl⟩ := List.mem_getLast?_eq_getLast hx
          rw [hxl]
          exact List.getLast_mem hne
        have hbound := (turnBlock_ts_bounds t hTt x hxmem).2
        have hrel : t.nowAI + 1 < t2.nowHuman := (List.chain'_cons.mp hsep).1
        rw [hyts]
        omega

/-- Claim C9: starting from an empty conversation with AI replies enabled,
a sequence of N successful human turns (each turn's transcription and
translation succeed; the clock is monotone within a turn and advances by at
least two between the AI creation point of one turn and the human creation
point of the next, as wall-clock time does between recordings) yields a turn
sequence that is exactly the concatenation of the per-turn blocks: it has
between N and 2N entries, its `createdAt` timestamps strictly increase in
sequence order, and whenever a turn's block contains an AI-attributed second
item, that item's speaker is the opposite of the immediately preceding human
item's speaker. -/
theorem conversation_turn_ordering (s : AppState) (turns : List TurnSpec)
    (hai : s.aiConversationMode = true) (hch : s.conversationHistory = [])
    (hok : ∀ t ∈ turns, turnOk t)
    (hT : ∀ t ∈ turns, t.nowHuman ≤ t.nowAI)
    (hsep : turns.Chain' (fun a b => a.nowAI + 1 < b.nowHuman)) :
    (runConversation s turns).conversationHistory = (turns.map turnBlock).flatten ∧
    turns.length ≤ (runConversation s turns).conversationHistory.length ∧
    (runConversation s turns).conversationHistory.length ≤ 2 * turns.length ∧
    (runConversation s turns).conversationHistory.Chain'
      (fun a b => a.timestamp < b.timestamp) ∧
    (∀ t ∈ turns, ∀ a b, turnBlock t = [a, b] →
      a.speaker = t.speaker ∧ b.speaker = t.speaker.opposite) := by
  have h1 := (runConversation_history turns s hai).1
  rw [hch] at h1
  simp only [List.nil_append] at h1
  obtain ⟨hl1, hl2⟩ := flatten_blocks_length turns hok
  refine ⟨h1, ?_, ?_, ?_, ?_⟩
  · rw [h1]
    exact hl1
  · rw [h1]
    exact hl2
  · rw [h1]
    exact flatten_blocks_chain turns hok hT hsep
  · intro t ht a b hab
    obtain ⟨hsA, hsB, _, _⟩ := turnBlock_pair t a b hab
    exact ⟨hsA, hsB⟩

/-- The initial conversation state of the witness run. -/
def c9Start : AppState := initialAppState []

/-- First witness turn: speaker A, all four calls succeed. -/
def c9Turn1 : TurnSpec :=
  { speaker := Speaker.A
    gateway :=
      { transcribe := some ("hi")
        translate := some ("hola")
        reply := some ("muy bien")
        translateBack := some ("very well") }
    nowHuman := 10
    nowAI := 20 }

/-- Second witness turn: speaker B, AI reply fails (and is swallowed). -/
def c9Turn2 : TurnSpec :=
  { speaker := Speaker.B
    gateway :=
      { transcribe := some ("bien")
        translate := some ("good")
        reply := none
        translateBack := none }
    nowHuman := 30
    nowAI := 40 }

/-- The witness turns are separated in time as the clock hypotheses ask. -/
theorem c9_turns_sep :
    List.Chain' (fun a b => a.nowAI + 1 < b.nowHuman) [c9Turn1, c9Turn2] :=
  List.Chain.cons (by decide) List.Chain.nil

/-- Claim C9 witness: the theorem applied to a concrete two-turn run. -/
theorem conversation_turn_ordering_witness :
    c9Start.aiConversationMode = true ∧
    c9Start.conversationHistory = [] ∧
    (∀ t ∈ [c9Turn1, c9Turn2], turnOk t) ∧
    (∀ t ∈ [c9Turn1, c9Turn2], t.nowHuman ≤ t.nowAI) ∧
    (List.Chain' (fun a b => a.nowAI + 1 < b.nowHuman) [c9Turn1, c9Turn2]) ∧
    ((runConversation c9Start [c9Turn1, c9Turn2]).conversationHistory
        = ([c9Turn1, c9Turn2].map turnBlock).flatten ∧
     ([c9Turn1, c9Turn2] : List TurnSpec).length
        ≤ (runConversation c9Start [c9Turn1, c9Turn2]).conversationHistory.length ∧
     (runConversation c9Start [c9Turn1, c9Turn2]).conversationHistory.length
        ≤ 2 * ([c9Turn1, c9Turn2] : List TurnSpec).length ∧
     (runConversation c9Start [c9Turn1, c9Turn2]).conversationHistory.Chain'
        (fun a b => a.timestamp < b.timestamp) ∧
     (∀ t ∈ [c9Turn1, c9Turn2], ∀ a b, turnBlock t = [a, b] →
        a.speaker = t.speaker ∧ b.speaker = t.speaker.opposite)) :=
  ⟨rfl, rfl, by decide, by decide, c9_turns_sep,
    conversation_turn_ordering c9Start [c9Turn1, c9Turn2] rfl rfl
      (by decide) (by decide) c9_turns_sep⟩

end VoiceTranslation
